import Mathlib

/-!
Shallow embedding of the `dids` library (`src/index.ts`, class `DID`).

The class keeps two mutable fields, `_client` (an RPC client wrapping a
provider connection) and `_id` (the authenticated DID string), plus a
resolver.  All cryptography, resolution, RPC transport and base64 codecs are
external collaborators; they are modelled here as function parameters, so the
theorems hold for every behaviour of those collaborators.  The `RPCClient`
wrapper stores exactly the provider connection it was built from
(`this._client.connection`), so the state models `_client` as the optional
connection itself.  JavaScript exceptions are modelled with `Except`;
operations that mutate the instance also return the post-call state, because
in the source a thrown error leaves any earlier field assignment in place.
-/

set_option autoImplicit false

namespace Dids

/-- JavaScript `String.prototype.includes`: `strIncludes s pat` is true when
`pat` occurs as a contiguous substring of `s`. -/
def strIncludes (s pat : String) : Bool :=
  decide (pat.toList <:+: s.toList)

/-- One entry of the `signatures` array of a DagJWS (see `./utils`). -/
structure JWSSignature where
  «protected» : Option String
  signature : String
  deriving DecidableEq

/-- A content identifier: only its `bytes` field is used by the code. -/
structure CID where
  bytes : List Nat
  deriving DecidableEq

/-- The DagJWS structure: general payload string, signatures, optional link
set by `createDagJWS`. -/
structure DagJWS where
  payload : String
  signatures : List JWSSignature
  link : Option CID
  deriving DecidableEq

/-- A compact JWS `header.payload.signature`; `jws.split('.')` in the source
yields exactly these three segments. -/
structure CompactJWS where
  header : String
  payload : String
  signature : String
  deriving DecidableEq

/-- The decoded first segment of a JWS; the code reads only its `kid`. -/
structure Header where
  kid : Option String
  deriving DecidableEq

/-- A public-key entry of a resolved DID document; `createJWE` reads only
`publicKeyHex`. -/
structure PublicKey where
  publicKeyHex : Option String
  deriving DecidableEq

/-- A resolved DID document; the code reads only `publicKey`. -/
structure DIDDocument where
  publicKey : List PublicKey
  deriving DecidableEq

/-- The specific validation failure inside `authenticate`; the source throws
`Invalid authencation response, <reason>`. -/
inductive AuthReason where
  | kidMismatch
  | wrongNonce
  | wrongAud
  | expired
  deriving DecidableEq

/-- Abstract error kinds of the module (spec section 7) together with the
errors propagated from collaborators.  `typeError` stands for the JavaScript
`TypeError` raised by reading a property of `undefined`. -/
inductive DIDError where
  | noProvider
  | providerConflict
  | notAuthenticated
  | invalidAuth (reason : AuthReason)
  | missingKid
  | decodeError
  | verificationFailed
  | resolutionFailed
  | transportFailed
  | typeError
  deriving DecidableEq

/-- The mutable state of a `DID` instance: `_client` holds the bound provider
connection (the `RPCClient` wrapper is identified with its `connection`
field), `_id` the authenticated identifier.  `C` is the opaque type of
provider connections; JavaScript reference equality `!==` on connections is
modelled by decidable equality on `C`. -/
structure DIDState (C : Type) where
  _client : Option C
  _id : Option String
  deriving DecidableEq

/-- `get authenticated()`: true iff `_id` is set. -/
def authenticated {C : Type} (s : DIDState C) : Bool :=
  s._id.isSome

/-- `get id()`: returns `_id` or throws `DID is not authenticated`. -/
def idQuery {C : Type} (s : DIDState C) : Except DIDError String :=
  match s._id with
  | none => .error .notAuthenticated
  | some i => .ok i

/-- `setProvider(provider)`: binds if unbound; throws
`A different provider is already set ...` when a different connection is
bound; does nothing when the same connection is passed.  Returns the result
together with the (possibly updated) state. -/
def setProvider {C : Type} [DecidableEq C] (s : DIDState C) (provider : C) :
    Except DIDError Unit × DIDState C :=
  match s._client with
  | none => (.ok (), { s with _client := some provider })
  | some conn =>
    if conn = provider then (.ok (), s)
    else (.error .providerConflict, s)

/-- `clearProvider()`: unbinds the connection, leaves `_id` untouched. -/
def clearProvider {C : Type} (s : DIDState C) : DIDState C :=
  { s with _client := none }

/-- `deauthenticate()`: `clearProvider()` then `_id = undefined`. -/
def deauthenticate {C : Type} (s : DIDState C) : DIDState C :=
  { clearProvider s with _id := none }

/-- The result of `verifyJWS`: the header `kid` and, when the second segment
decodes as JSON, the decoded payload (`J` is the opaque type of decoded JSON
values). -/
structure VerifyJWSResult (J : Type) where
  kid : String
  payload : Option J
  deriving DecidableEq

/-- `verifyJWS(jws)` on the compact form, parameterised by the collaborators:
`decodeHeader` and `decodePayload` are `base64urlToJSON` applied to the first
and second segment (`decodePayload` returns `none` where the source catches
the decode exception), `resolve` is the resolver, `djVerifyJWS` the
signature check of `did-jwt`.  The second component of the result is the
trace of DIDs passed to the resolver during the call, in order. -/
def verifyJWS {J : Type}
    (decodeHeader : String → Except DIDError Header)
    (resolve : String → Except DIDError DIDDocument)
    (djVerifyJWS : CompactJWS → List PublicKey → Except DIDError Unit)
    (decodePayload : String → Option J)
    (jws : CompactJWS) :
    Except DIDError (VerifyJWSResult J) × List String :=
  match decodeHeader jws.header with
  | .error e => (.error e, [])
  | .ok h =>
    match h.kid with
    | none => (.error .missingKid, [])
    | some kid =>
      if kid = "" then (.error .missingKid, [])
      else
        match resolve kid with
        | .error e => (.error e, [kid])
        | .ok doc =>
          match djVerifyJWS jws doc.publicKey with
          | .error e => (.error e, [kid])
          | .ok _ => (.ok { kid := kid, payload := decodePayload jws.payload }, [kid])

/-- The request body of `did_authenticate`. -/
structure AuthenticateParams where
  nonce : String
  aud : Option String
  paths : Option (List String)
  deriving DecidableEq

/-- The decoded payload of an authentication response. -/
structure AuthenticateResponse where
  did : String
  nonce : String
  aud : Option String
  exp : Int
  paths : Option (List String)
  deriving DecidableEq

/-- `authenticate({provider, paths, aud})`.  `nonce` is the value produced by
`randomString()`, `request` the provider RPC call, `fromDagJWS` the compact
encoding from `./utils`, `decodeAuth` is `base64urlToJSON` on `jws.payload`
(`none` when it throws), `now` is `Date.now() / 1000`.  Returns the thrown
error or the returned identifier, together with the post-call state: a
provider bound by step 1 stays bound even when a later step throws, and
`_id` is assigned only on full success. -/
def authenticate {C : Type} {J : Type} [DecidableEq C]
    (s : DIDState C)
    (provider : Option C) (aud : Option String) (paths : Option (List String))
    (nonce : String)
    (request : AuthenticateParams → Except DIDError DagJWS)
    (fromDagJWS : DagJWS → CompactJWS)
    (decodeHeader : String → Except DIDError Header)
    (resolve : String → Except DIDError DIDDocument)
    (djVerifyJWS : CompactJWS → List PublicKey → Except DIDError Unit)
    (decodePayload : String → Option J)
    (decodeAuth : String → Option AuthenticateResponse)
    (now : Int) :
    Except DIDError String × DIDState C :=
  match (match provider with
         | some p => setProvider s p
         | none => (.ok (), s) : Except DIDError Unit × DIDState C) with
  | (.error e, s1) => (.error e, s1)
  | (.ok _, s1) =>
    match s1._client with
    | none => (.error .noProvider, s1)
    | some _ =>
      match request { nonce := nonce, aud := aud, paths := paths } with
      | .error e => (.error e, s1)
      | .ok jws =>
        match (verifyJWS decodeHeader resolve djVerifyJWS decodePayload
                (fromDagJWS jws)).1 with
        | .error e => (.error e, s1)
        | .ok vres =>
          match decodeAuth jws.payload with
          | none => (.error .decodeError, s1)
          | some payload =>
            if strIncludes vres.kid payload.did = false then
              (.error (.invalidAuth .kidMismatch), s1)
            else if payload.nonce ≠ nonce then
              (.error (.invalidAuth .wrongNonce), s1)
            else if payload.aud ≠ aud then
              (.error (.invalidAuth .wrongAud), s1)
            else if payload.exp < now then
              (.error (.invalidAuth .expired), s1)
            else
              (.ok payload.did, { s1 with _id := some payload.did })

/-- The options object of `createJWS`; `J` is the opaque type of the
`protected` JSON record. -/
structure CreateJWSOptions (J : Type) where
  did : Option String
  «protected» : Option J
  linkedBlock : Option String
  deriving DecidableEq

/-- The request body of `did_createJWS` (`{...options, payload}`). -/
structure CreateJWSParams (J : Type) (P : Type) where
  did : Option String
  «protected» : Option J
  linkedBlock : Option String
  payload : P
  deriving DecidableEq

/-- The in-place defaulting `if (!options.did) options.did = this._id` of
`createJWS`: a missing — or falsy, hence also empty — `did` is overwritten
with the authenticated identifier `i`. -/
def defaultDid {J : Type} (options : CreateJWSOptions J) (i : String) :
    CreateJWSOptions J :=
  match options.did with
  | none => { options with did := some i }
  | some d => if d = "" then { options with did := some i } else options

/-- `createJWS(payload, options)`: requires a provider and an authenticated
id, defaults a missing (or falsy, hence also empty) `options.did` to `_id`
by mutating the caller's options object, forwards to the provider.  The
returned pair carries the resulting JWS and the options object as it stands
after the call, modelling the in-place mutation. -/
def createJWS {C : Type} {J P : Type}
    (s : DIDState C) (payload : P) (options : CreateJWSOptions J)
    (request : CreateJWSParams J P → Except DIDError DagJWS) :
    Except DIDError (DagJWS × CreateJWSOptions J) :=
  match s._client with
  | none => .error .noProvider
  | some _ =>
    match s._id with
    | none => .error .notAuthenticated
    | some i =>
      let options1 := defaultDid options i
      match request { did := options1.did, «protected» := options1.«protected»,
                      linkedBlock := options1.linkedBlock, payload := payload } with
      | .error e => .error e
      | .ok jws => .ok (jws, options1)

/-- The result of `createDagJWS`: the linked JWS plus the raw block bytes. -/
structure DagJWSResult where
  jws : DagJWS
  linkedBlock : List Nat
  deriving DecidableEq

/-- `createDagJWS(payload, options)`: encodes the payload into a CID plus
linked block, base64url-encodes the CID bytes as the string to sign,
overwrites `options.linkedBlock` in place via `Object.assign` with the
base64 of the block, signs through `createJWS`, sets `jws.link` to the CID.
The returned options object is the caller's object after both in-place
mutations (`linkedBlock` here, possibly `did` inside `createJWS`). -/
def createDagJWS {C : Type} {J P : Type}
    (s : DIDState C) (payload : P) (options : CreateJWSOptions J)
    (encodePayload : P → Except DIDError (CID × List Nat))
    (encodeBase64Url : List Nat → String)
    (encodeBase64 : List Nat → String)
    (request : CreateJWSParams J String → Except DIDError DagJWS) :
    Except DIDError (DagJWSResult × CreateJWSOptions J) :=
  match encodePayload payload with
  | .error e => .error e
  | .ok (cid, linkedBlock) =>
    let payloadCid := encodeBase64Url cid.bytes
    let options1 := { options with linkedBlock := some (encodeBase64 linkedBlock) }
    match createJWS s payloadCid options1 request with
    | .error e => .error e
    | .ok (jws, options2) =>
      .ok ({ jws := { jws with link := some cid }, linkedBlock := linkedBlock },
           options2)

/-- The options object of `createJWE`. -/
structure CreateJWEOptions (J : Type) where
  protectedHeader : Option J
  aad : Option (List Nat)
  deriving DecidableEq

/-- The request body of `did_createJWE` (`{...options, cleartext,
recipients}`). -/
structure CreateJWEParams (J : Type) where
  protectedHeader : Option J
  aad : Option (List Nat)
  cleartext : List Nat
  recipients : List String
  deriving DecidableEq

/-- The `recepients` array (sic) built by `createJWE` from the first public
key of the first recipient's document: the hex key when present and truthy
(a JavaScript empty string is falsy and is not pushed), else empty. -/
def recepientsOf (pk : PublicKey) : List String :=
  match pk.publicKeyHex with
  | some h => if h = "" then [] else [h]
  | none => []

/-- `createJWE(cleartext, recipients, options)`: requires a provider;
resolves the first recipient (`recipients[0]`, `none` models the JavaScript
`undefined` on an empty array), reads `publicKey[0].publicKeyHex` (a missing
entry raises a `TypeError`), tries the provider request, and on any failure
of that request falls back to `resolveX25519Encrypters` over all recipients
followed by the local `did-jwt` `createJWE` with the same cleartext,
protected header and aad.  `W` is the opaque JWE type, `E` the opaque
encrypter list type. -/
def createJWE {C : Type} {J W E : Type}
    (s : DIDState C) (cleartext : List Nat) (recipients : List String)
    (options : CreateJWEOptions J)
    (resolve : Option String → Except DIDError DIDDocument)
    (request : CreateJWEParams J → Except DIDError W)
    (resolveX25519Encrypters : List String → Except DIDError E)
    (djCreateJWE : List Nat → E → Option J → Option (List Nat) → Except DIDError W) :
    Except DIDError W :=
  match s._client with
  | none => .error .noProvider
  | some _ =>
    match resolve recipients.head? with
    | .error e => .error e
    | .ok didDoc =>
      match didDoc.publicKey with
      | [] => .error .typeError
      | pk0 :: _ =>
        match request { protectedHeader := options.protectedHeader,
                        aad := options.aad, cleartext := cleartext,
                        recipients := recepientsOf pk0 } with
        | .ok jwe => .ok jwe
        | .error _ =>
          match resolveX25519Encrypters recipients with
          | .error e => .error e
          | .ok encrypters =>
            djCreateJWE cleartext encrypters options.protectedHeader options.aad

/-- C6: `setProvider` binds the connection when none is bound, is a no-op
when the identical connection is already bound, and fails with
`ProviderConflict` on a different connection, leaving the original binding
(indeed the whole state) unchanged. -/
theorem setProvider_bind_idempotent_conflict {C : Type} [DecidableEq C]
    (s : DIDState C) (p q : C) :
    (s._client = none →
      setProvider s p = (.ok (), { s with _client := some p })) ∧
    (s._client = some p → setProvider s p = (.ok (), s)) ∧
    (s._client = some q → q ≠ p →
      setProvider s p = (.error .providerConflict, s)) := by
  refine ⟨fun h => ?_, fun h => ?_, fun h hne => ?_⟩ <;> simp [setProvider, h]
  intro he
  exact absurd he hne

theorem setProvider_bind_idempotent_conflict_witness :
    setProvider (C := Nat) ⟨none, none⟩ 1 = (.ok (), ⟨some 1, none⟩) ∧
    setProvider (C := Nat) ⟨some 1, none⟩ 1 = (.ok (), ⟨some 1, none⟩) ∧
    setProvider (C := Nat) ⟨some 2, none⟩ 1 =
      (.error .providerConflict, ⟨some 2, none⟩) :=
  ⟨(setProvider_bind_idempotent_conflict ⟨none, none⟩ 1 2).1 rfl,
   (setProvider_bind_idempotent_conflict ⟨some 1, none⟩ 1 2).2.1 rfl,
   (setProvider_bind_idempotent_conflict ⟨some 2, none⟩ 1 2).2.2 rfl (by decide)⟩

/-- C8: in any state, `deauthenticate` unbinds the provider and clears the
identifier: afterwards `authenticated` is false and `id` fails with
`NotAuthenticated`. -/
theorem deauthenticate_clears {C : Type} (s : DIDState C) :
    deauthenticate s = { _client := none, _id := none } ∧
    authenticated (deauthenticate s) = false ∧
    idQuery (deauthenticate s) = .error .notAuthenticated :=
  ⟨rfl, rfl, rfl⟩

/-- C10: `clearProvider` on an authenticated handle removes only the
provider binding: the identifier is unchanged, `authenticated` stays true
and `id` still returns the established identifier, while no provider is
bound any more. -/
theorem clearProvider_preserves_identifier {C : Type} (s : DIDState C)
    (d : String) (h : s._id = some d) :
    (clearProvider s)._client = none ∧
    (clearProvider s)._id = s._id ∧
    authenticated (clearProvider s) = true ∧
    idQuery (clearProvider s) = .ok d := by
  refine ⟨rfl, rfl, ?_, ?_⟩ <;> simp [authenticated, idQuery, clearProvider, h]

theorem clearProvider_preserves_identifier_witness :
    (clearProvider (C := Nat) ⟨some 1, some "did:3:abc"⟩)._client = none ∧
    (clearProvider (C := Nat) ⟨some 1, some "did:3:abc"⟩)._id = some "did:3:abc" ∧
    authenticated (clearProvider (C := Nat) ⟨some 1, some "did:3:abc"⟩) = true ∧
    idQuery (clearProvider (C := Nat) ⟨some 1, some "did:3:abc"⟩) = .ok "did:3:abc" :=
  clearProvider_preserves_identifier ⟨some 1, some "did:3:abc"⟩ "did:3:abc" rfl

/-- C4: when the decoded header of the envelope lacks a `kid`, `verifyJWS`
fails with `MissingKid` and the resolver-invocation trace is empty, so no
DID resolution is attempted before the failure. -/
theorem verifyJWS_missingKid_no_resolution {J : Type}
    (decodeHeader : String → Except DIDError Header)
    (resolve : String → Except DIDError DIDDocument)
    (djVerifyJWS : CompactJWS → List PublicKey → Except DIDError Unit)
    (decodePayload : String → Option J)
    (jws : CompactJWS) (h : Header)
    (hdec : decodeHeader jws.header = .ok h) (hkid : h.kid = none) :
    verifyJWS decodeHeader resolve djVerifyJWS decodePayload jws =
      (.error .missingKid, []) := by
  simp [verifyJWS, hdec, hkid]

theorem verifyJWS_missingKid_no_resolution_witness :
    verifyJWS (J := Unit) (fun _ => .ok { kid := none })
      (fun _ => .ok { publicKey := [] }) (fun _ _ => .ok ())
      (fun _ => none) { header := "hd", payload := "pl", signature := "sg" } =
      (.error .missingKid, []) :=
  verifyJWS_missingKid_no_resolution _ _ _ _ _ { kid := none } rfl rfl

/-- C7: when the signature verifies against the resolved key, a failing
decode of the payload segment does not fail the call: the result is the
`kid` with the payload omitted; when the decode succeeds the result carries
the decoded payload. -/
theorem verifyJWS_payload_optional {J : Type}
    (decodeHeader : String → Except DIDError Header)
    (resolve : String → Except DIDError DIDDocument)
    (djVerifyJWS : CompactJWS → List PublicKey → Except DIDError Unit)
    (decodePayload : String → Option J)
    (jws : CompactJWS) (h : Header) (k : String) (doc : DIDDocument)
    (hdec : decodeHeader jws.header = .ok h) (hkid : h.kid = some k)
    (hne : k ≠ "") (hres : resolve k = .ok doc)
    (hver : djVerifyJWS jws doc.publicKey = .ok ()) :
    (decodePayload jws.payload = none →
      (verifyJWS decodeHeader resolve djVerifyJWS decodePayload jws).1 =
        .ok { kid := k, payload := none }) ∧
    (∀ p, decodePayload jws.payload = some p →
      (verifyJWS decodeHeader resolve djVerifyJWS decodePayload jws).1 =
        .ok { kid := k, payload := some p }) := by
  constructor
  · intro hp
    simp [verifyJWS, hdec, hkid, hne, hres, hver, hp]
  · intro p hp
    simp [verifyJWS, hdec, hkid, hne, hres, hver, hp]

theorem verifyJWS_payload_optional_witness :
    (verifyJWS (J := Nat) (fun _ => .ok { kid := some "did:3:abc#key1" })
      (fun _ => .ok { publicKey := [] }) (fun _ _ => .ok ())
      (fun _ => some 5) { header := "hd", payload := "pl", signature := "sg" }).1 =
      .ok { kid := "did:3:abc#key1", payload := some 5 } :=
  (verifyJWS_payload_optional _ _ _ _ _ { kid := some "did:3:abc#key1" }
    "did:3:abc#key1" { publicKey := [] } rfl rfl (by decide) rfl rfl).2 5 rfl

/-- C5: with a provider bound, whenever the provider request of `createJWE`
fails — for instance because the first recipient's document offered no
extractable hex key, so the request carried an empty key list — the call
falls back to resolving X25519 encrypters for all recipients and encrypting
locally with the same cleartext, protected header and aad, returning that
result; and when the fallback itself fails, that failure propagates. -/
theorem createJWE_fallback_on_primary_failure {C J W E : Type}
    (s : DIDState C) (c : C) (cleartext : List Nat) (recipients : List String)
    (options : CreateJWEOptions J)
    (resolve : Option String → Except DIDError DIDDocument)
    (request : CreateJWEParams J → Except DIDError W)
    (resolveX25519Encrypters : List String → Except DIDError E)
    (djCreateJWE : List Nat → E → Option J → Option (List Nat) → Except DIDError W)
    (doc : DIDDocument) (pk0 : PublicKey) (pks : List PublicKey) (e : DIDError)
    (hc : s._client = some c)
    (hres : resolve recipients.head? = .ok doc)
    (hpk : doc.publicKey = pk0 :: pks)
    (hreq : request { protectedHeader := options.protectedHeader,
                      aad := options.aad, cleartext := cleartext,
                      recipients := recepientsOf pk0 } = .error e) :
    (createJWE s cleartext recipients options resolve request
        resolveX25519Encrypters djCreateJWE =
      match resolveX25519Encrypters recipients with
      | .error e2 => .error e2
      | .ok encrypters =>
          djCreateJWE cleartext encrypters options.protectedHeader options.aad) ∧
    (∀ e2, resolveX25519Encrypters recipients = .error e2 →
      createJWE s cleartext recipients options resolve request
        resolveX25519Encrypters djCreateJWE = .error e2) := by
  constructor
  · simp [createJWE, hc, hres, hpk, hreq]
  · intro e2 h2
    simp [createJWE, hc, hres, hpk, hreq, h2]

theorem createJWE_fallback_on_primary_failure_witness :
    createJWE (C := Nat) (J := Nat) (W := Nat) (E := Nat)
      ⟨some 1, none⟩ [7, 8] ["did:3:a", "did:3:b"] ⟨none, none⟩
      (fun _ => .ok { publicKey := [{ publicKeyHex := none }] })
      (fun _ => .error .transportFailed)
      (fun _ => .ok 0) (fun _ _ _ _ => .ok 42) = .ok 42 :=
  (createJWE_fallback_on_primary_failure ⟨some 1, none⟩ 1 [7, 8]
    ["did:3:a", "did:3:b"] ⟨none, none⟩
    (fun _ => .ok { publicKey := [{ publicKeyHex := none }] })
    (fun _ => .error .transportFailed) (fun _ => .ok 0) (fun _ _ _ _ => .ok 42)
    { publicKey := [{ publicKeyHex := none }] } { publicKeyHex := none } []
    .transportFailed rfl rfl rfl rfl).1

/-- The in-place `did` defaulting leaves the `linkedBlock` field alone. -/
theorem defaultDid_linkedBlock {J : Type} (options : CreateJWSOptions J)
    (i : String) :
    (defaultDid options i).linkedBlock = options.linkedBlock := by
  rcases h : options.did with _ | d
  · simp [defaultDid, h]
  · simp only [defaultDid, h]
    split <;> rfl

/-- A successful `createJWS` call never touches the `linkedBlock` field of
the caller's options object: only `did` may be defaulted in place. -/
theorem createJWS_ok_linkedBlock_unchanged {C J P : Type}
    (s : DIDState C) (payload : P) (options : CreateJWSOptions J)
    (request : CreateJWSParams J P → Except DIDError DagJWS)
    (jws : DagJWS) (o2 : CreateJWSOptions J)
    (h : createJWS s payload options request = .ok (jws, o2)) :
    o2.linkedBlock = options.linkedBlock := by
  simp only [createJWS] at h
  split at h
  · exact absurd h (by simp)
  split at h
  · exact absurd h (by simp)
  split at h
  · exact absurd h (by simp)
  · rw [Except.ok.injEq, Prod.mk.injEq] at h
    obtain ⟨-, ho⟩ := h
    rw [← ho, defaultDid_linkedBlock]

/-- C9: `createDagJWS` mutates the caller-owned options object in place:
after a successful call the options object's `linkedBlock` field holds the
base64 encoding of the linked block produced by encoding the payload. -/
theorem createDagJWS_mutates_options {C J P : Type}
    (s : DIDState C) (payload : P) (options : CreateJWSOptions J)
    (encodePayload : P → Except DIDError (CID × List Nat))
    (encodeBase64Url : List Nat → String)
    (encodeBase64 : List Nat → String)
    (request : CreateJWSParams J String → Except DIDError DagJWS)
    (cid : CID) (lb : List Nat) (r : DagJWSResult) (optsAfter : CreateJWSOptions J)
    (henc : encodePayload payload = .ok (cid, lb))
    (hres : createDagJWS s payload options encodePayload encodeBase64Url
        encodeBase64 request = .ok (r, optsAfter)) :
    optsAfter.linkedBlock = some (encodeBase64 lb) := by
  simp only [createDagJWS, henc] at hres
  cases hjw : createJWS s (encodeBase64Url cid.bytes)
      { options with linkedBlock := some (encodeBase64 lb) } request with
  | error e => rw [hjw] at hres; exact absurd hres (by simp)
  | ok pr =>
    obtain ⟨jws1, o2⟩ := pr
    rw [hjw] at hres
    rw [Except.ok.injEq, Prod.mk.injEq] at hres
    obtain ⟨-, ho⟩ := hres
    rw [← ho]
    exact createJWS_ok_linkedBlock_unchanged s _ _ request jws1 o2 hjw

theorem createDagJWS_mutates_options_witness :
    ({ did := some "did:3:me", «protected» := none, linkedBlock := some "QjY0" } :
      CreateJWSOptions Nat).linkedBlock = some "QjY0" :=
  createDagJWS_mutates_options (C := Nat) ⟨some 1, some "did:3:me"⟩ (37 : Nat)
    { did := none, «protected» := none, linkedBlock := none }
    (fun _ => .ok (⟨[1, 2]⟩, [3, 4])) (fun _ => "Y2lk") (fun _ => "QjY0")
    (fun _ => .ok { payload := "pl", signatures := [], link := none })
    ⟨[1, 2]⟩ [3, 4]
    { jws := { payload := "pl", signatures := [], link := some ⟨[1, 2]⟩ },
      linkedBlock := [3, 4] }
    { did := some "did:3:me", «protected» := none, linkedBlock := some "QjY0" }
    rfl rfl

/-- Sample DagJWS used to evaluate the authentication theorems. -/
def sampleJWS : DagJWS :=
  { payload := "pl", signatures := [], link := none }

/-- Sample compact encoding of `sampleJWS`. -/
def sampleCompact : CompactJWS :=
  { header := "hd", payload := "pl", signature := "sg" }

/-- Sample decoded authentication response with expiry `e`. -/
def sampleAuth (e : Int) : AuthenticateResponse :=
  { did := "did:3:abc", nonce := "n0", aud := none, exp := e, paths := none }

/-- C2: a response whose signature verifies and that passes every
validation — the header `kid` references the claimed identifier, the nonce
matches the generated one, the aud matches the requested one (including the
both-absent case), the expiry is strictly in the future — authenticates:
the call returns the claimed identifier and stores it, so `id` afterwards
returns it. -/
theorem authenticate_valid_succeeds {C : Type} {J : Type} [DecidableEq C]
    (s : DIDState C) (c : C) (aud : Option String) (paths : Option (List String))
    (nonce : String)
    (request : AuthenticateParams → Except DIDError DagJWS)
    (fromDagJWS : DagJWS → CompactJWS)
    (decodeHeader : String → Except DIDError Header)
    (resolve : String → Except DIDError DIDDocument)
    (djVerifyJWS : CompactJWS → List PublicKey → Except DIDError Unit)
    (decodePayload : String → Option J)
    (decodeAuth : String → Option AuthenticateResponse)
    (now : Int) (jws : DagJWS) (vres : VerifyJWSResult J)
    (payload : AuthenticateResponse)
    (hc : s._client = some c)
    (hreq : request { nonce := nonce, aud := aud, paths := paths } = .ok jws)
    (hver : (verifyJWS decodeHeader resolve djVerifyJWS decodePayload
        (fromDagJWS jws)).1 = .ok vres)
    (hdec : decodeAuth jws.payload = some payload)
    (hkid : strIncludes vres.kid payload.did = true)
    (hnonce : payload.nonce = nonce)
    (haud : payload.aud = aud)
    (hexp : now < payload.exp) :
    authenticate s none aud paths nonce request fromDagJWS decodeHeader
        resolve djVerifyJWS decodePayload decodeAuth now =
      (.ok payload.did, { s with _id := some payload.did }) ∧
    idQuery (authenticate s none aud paths nonce request fromDagJWS
        decodeHeader resolve djVerifyJWS decodePayload decodeAuth now).2 =
      .ok payload.did := by
  have hexp' : ¬ payload.exp < now := by omega
  have hmain : authenticate s none aud paths nonce request fromDagJWS
      decodeHeader resolve djVerifyJWS decodePayload decodeAuth now =
      (.ok payload.did, { s with _id := some payload.did }) := by
    simp [authenticate, hc, hreq, hver, hdec, hkid, hnonce, haud, hexp']
  exact ⟨hmain, by rw [hmain]; simp [idQuery]⟩

theorem authenticate_valid_succeeds_witness :
    authenticate (C := Nat) (J := Nat) ⟨some 1, none⟩ none none none "n0"
      (fun _ => .ok sampleJWS) (fun _ => sampleCompact)
      (fun _ => .ok { kid := some "did:3:abc#key1" })
      (fun _ => .ok { publicKey := [] }) (fun _ _ => .ok ()) (fun _ => none)
      (fun _ => some (sampleAuth 2000)) 1000 =
      (.ok "did:3:abc", ⟨some 1, some "did:3:abc"⟩) :=
  (authenticate_valid_succeeds ⟨some 1, none⟩ 1 none none "n0"
    (fun _ => .ok sampleJWS) (fun _ => sampleCompact)
    (fun _ => .ok { kid := some "did:3:abc#key1" })
    (fun _ => .ok { publicKey := [] }) (fun _ _ => .ok ()) (fun _ => none)
    (fun _ => some (sampleAuth 2000)) 1000 sampleJWS
    { kid := "did:3:abc#key1", payload := none } (sampleAuth 2000)
    rfl rfl rfl rfl (by decide) rfl rfl (by decide)).1

/-- C1: when any validation fails — the header `kid` does not reference the
claimed identifier, the nonce mismatches, the aud mismatches, or the expiry
lies in the past — `authenticate` fails with
`InvalidAuthenticationResponse`, the post-call state equals the pre-call
state, and with the identifier unset beforehand it stays unset, so
`authenticated` still returns false: no partial state is retained. -/
theorem authenticate_invalid_rejects_no_partial_state {C : Type} {J : Type}
    [DecidableEq C]
    (s : DIDState C) (c : C) (aud : Option String) (paths : Option (List String))
    (nonce : String)
    (request : AuthenticateParams → Except DIDError DagJWS)
    (fromDagJWS : DagJWS → CompactJWS)
    (decodeHeader : String → Except DIDError Header)
    (resolve : String → Except DIDError DIDDocument)
    (djVerifyJWS : CompactJWS → List PublicKey → Except DIDError Unit)
    (decodePayload : String → Option J)
    (decodeAuth : String → Option AuthenticateResponse)
    (now : Int) (jws : DagJWS) (vres : VerifyJWSResult J)
    (payload : AuthenticateResponse)
    (hid : s._id = none)
    (hc : s._client = some c)
    (hreq : request { nonce := nonce, aud := aud, paths := paths } = .ok jws)
    (hver : (verifyJWS decodeHeader resolve djVerifyJWS decodePayload
        (fromDagJWS jws)).1 = .ok vres)
    (hdec : decodeAuth jws.payload = some payload)
    (hfail : strIncludes vres.kid payload.did = false ∨ payload.nonce ≠ nonce ∨
        payload.aud ≠ aud ∨ payload.exp < now) :
    (∃ r, (authenticate s none aud paths nonce request fromDagJWS decodeHeader
        resolve djVerifyJWS decodePayload decodeAuth now).1 =
      .error (.invalidAuth r)) ∧
    (authenticate s none aud paths nonce request fromDagJWS decodeHeader
        resolve djVerifyJWS decodePayload decodeAuth now).2 = s ∧
    authenticated (authenticate s none aud paths nonce request fromDagJWS
        decodeHeader resolve djVerifyJWS decodePayload decodeAuth now).2 =
      false := by
  have hred : authenticate s none aud paths nonce request fromDagJWS
      decodeHeader resolve djVerifyJWS decodePayload decodeAuth now =
      (if strIncludes vres.kid payload.did = false then
        ((.error (.invalidAuth .kidMismatch) : Except DIDError String), s)
       else if payload.nonce ≠ nonce then (.error (.invalidAuth .wrongNonce), s)
       else if payload.aud ≠ aud then (.error (.invalidAuth .wrongAud), s)
       else if payload.exp < now then (.error (.invalidAuth .expired), s)
       else (.ok payload.did, { s with _id := some payload.did })) := by
    simp [authenticate, hc, hreq, hver, hdec]
  rw [hred]
  split_ifs with h1 h2 h3 h4
  · exact ⟨⟨.kidMismatch, rfl⟩, rfl, by simp [authenticated, hid]⟩
  · exact ⟨⟨.wrongNonce, rfl⟩, rfl, by simp [authenticated, hid]⟩
  · exact ⟨⟨.wrongAud, rfl⟩, rfl, by simp [authenticated, hid]⟩
  · exact ⟨⟨.expired, rfl⟩, rfl, by simp [authenticated, hid]⟩
  · rcases hfail with h | h | h | h
    · exact absurd h h1
    · exact absurd h h2
    · exact absurd h h3
    · exact absurd h h4

/-- A sample `authenticate` run whose response carries a wrong nonce. -/
def sampleBadNonceRun : Except DIDError String × DIDState Nat :=
  authenticate (J := Nat) ⟨some 1, none⟩ none none none "n0"
    (fun _ => .ok sampleJWS) (fun _ => sampleCompact)
    (fun _ => .ok { kid := some "did:3:abc#key1" })
    (fun _ => .ok { publicKey := [] }) (fun _ _ => .ok ()) (fun _ => none)
    (fun _ => some { did := "did:3:abc", nonce := "bad", aud := none,
                     exp := 2000, paths := none }) 1000

theorem authenticate_invalid_rejects_no_partial_state_witness :
    (∃ r, sampleBadNonceRun.1 = .error (.invalidAuth r)) ∧
    sampleBadNonceRun.2 = ⟨some 1, none⟩ ∧
    authenticated sampleBadNonceRun.2 = false :=
  authenticate_invalid_rejects_no_partial_state ⟨some 1, none⟩ 1 none none "n0"
    (fun _ => .ok sampleJWS) (fun _ => sampleCompact)
    (fun _ => .ok { kid := some "did:3:abc#key1" })
    (fun _ => .ok { publicKey := [] }) (fun _ _ => .ok ()) (fun _ => none)
    (fun _ => some { did := "did:3:abc", nonce := "bad", aud := none,
                     exp := 2000, paths := none }) 1000 sampleJWS
    { kid := "did:3:abc#key1", payload := none }
    { did := "did:3:abc", nonce := "bad", aud := none, exp := 2000,
      paths := none }
    rfl rfl rfl rfl rfl (Or.inr (Or.inl (by decide)))

/-- C3 counterexample: at the concrete instant `now = 1000`, a response
whose expiry is exactly `1000` — not strictly greater than the current
time — is accepted: `authenticate` returns the claimed identifier and
stores it, instead of rejecting with `InvalidAuthenticationResponse`. -/
theorem authenticate_accepts_expiry_equal_now :
    authenticate (C := Nat) (J := Nat) ⟨some 1, none⟩ none none none "n0"
      (fun _ => .ok sampleJWS) (fun _ => sampleCompact)
      (fun _ => .ok { kid := some "did:3:abc#key1" })
      (fun _ => .ok { publicKey := [] }) (fun _ _ => .ok ()) (fun _ => none)
      (fun _ => some (sampleAuth 1000)) 1000 =
      (.ok "did:3:abc", ⟨some 1, some "did:3:abc"⟩) := by
  rfl

/-- C3 amended: the expiry check of `authenticate` is `payload.exp < now`,
so — when the kid, nonce and aud checks pass — the call rejects as expired
exactly the responses whose expiry is strictly below the current time, and
accepts a response whose expiry equals or exceeds the current time. -/
theorem authenticate_expiry_boundary {C : Type} {J : Type} [DecidableEq C]
    (s : DIDState C) (c : C) (aud : Option String) (paths : Option (List String))
    (nonce : String)
    (request : AuthenticateParams → Except DIDError DagJWS)
    (fromDagJWS : DagJWS → CompactJWS)
    (decodeHeader : String → Except DIDError Header)
    (resolve : String → Except DIDError DIDDocument)
    (djVerifyJWS : CompactJWS → List PublicKey → Except DIDError Unit)
    (decodePayload : String → Option J)
    (decodeAuth : String → Option AuthenticateResponse)
    (now : Int) (jws : DagJWS) (vres : VerifyJWSResult J)
    (payload : AuthenticateResponse)
    (hc : s._client = some c)
    (hreq : request { nonce := nonce, aud := aud, paths := paths } = .ok jws)
    (hver : (verifyJWS decodeHeader resolve djVerifyJWS decodePayload
        (fromDagJWS jws)).1 = .ok vres)
    (hdec : decodeAuth jws.payload = some payload)
    (hkid : strIncludes vres.kid payload.did = true)
    (hnonce : payload.nonce = nonce)
    (haud : payload.aud = aud) :
    (payload.exp < now →
      (authenticate s none aud paths nonce request fromDagJWS decodeHeader
        resolve djVerifyJWS decodePayload decodeAuth now).1 =
        .error (.invalidAuth .expired)) ∧
    (now ≤ payload.exp →
      (authenticate s none aud paths nonce request fromDagJWS decodeHeader
        resolve djVerifyJWS decodePayload decodeAuth now).1 =
        .ok payload.did) := by
  constructor
  · intro hlt
    simp [authenticate, hc, hreq, hver, hdec, hkid, hnonce, haud, hlt]
  · intro hle
    have hlt : ¬ payload.exp < now := by omega
    simp [authenticate, hc, hreq, hver, hdec, hkid, hnonce, haud, hlt]

theorem authenticate_expiry_boundary_witness :
    (authenticate (C := Nat) (J := Nat) ⟨some 1, none⟩ none none none "n0"
      (fun _ => .ok sampleJWS) (fun _ => sampleCompact)
      (fun _ => .ok { kid := some "did:3:abc#key1" })
      (fun _ => .ok { publicKey := [] }) (fun _ _ => .ok ()) (fun _ => none)
      (fun _ => some (sampleAuth 1000)) 1000).1 = .ok "did:3:abc" :=
  (authenticate_expiry_boundary ⟨some 1, none⟩ 1 none none "n0"
    (fun _ => .ok sampleJWS) (fun _ => sampleCompact)
    (fun _ => .ok { kid := some "did:3:abc#key1" })
    (fun _ => .ok { publicKey := [] }) (fun _ _ => .ok ()) (fun _ => none)
    (fun _ => some (sampleAuth 1000)) 1000 sampleJWS
    { kid := "did:3:abc#key1", payload := none } (sampleAuth 1000)
    rfl rfl rfl rfl (by decide) rfl rfl).2 (by decide)

end Dids
